import Mathlib

/-!
Shallow embedding of `src/main3.cpp`, a console vehicle-insurance risk
demonstrator.  Doubles are modelled as exact rationals (`ℚ`), C++ `int`
as `Int`, and `std::map<string, RiskLevel>` as an association list kept
sorted by key in strictly ascending lexicographic `String` order, which
is the iteration order of `std::map`.
-/

namespace Main3

/-- `enum class RiskLevel { LOW, MEDIUM, HIGH }` (line 11). -/
inductive RiskLevel where
  | LOW
  | MEDIUM
  | HIGH
deriving DecidableEq, Repr

/-- `enum class VehicleType { CAR, TRUCK, MOTORCYCLE }` (line 12). -/
inductive VehicleType where
  | CAR
  | TRUCK
  | MOTORCYCLE
deriving DecidableEq, Repr

/-- `class Vehicle` (lines 25-40): immutable record of the six fields. -/
structure Vehicle where
  make : String
  model : String
  year : Int
  type : VehicleType
  accidentCount : Int
  isCommercial : Bool
deriving DecidableEq, Repr

/-- `static constexpr double BASE_RISK = 0.8;` (line 45). -/
def BASE_RISK : ℚ := 0.8

/-- `CarRiskCalculator::calculateBaseRisk` (line 47):
`BASE_RISK * (vehicle.getIsCommercial() ? 1.5 : 1.0)`. -/
def CarRiskCalculator.calculateBaseRisk (vehicle : Vehicle) : ℚ :=
  BASE_RISK * (if vehicle.isCommercial then 1.5 else 1.0)

/-- `CarRiskCalculator::applyModifiers` (lines 48-50):
`risk * (1.0 + (2024 - year) * 0.05) * (1.0 + accidentCount * 0.15)`. -/
def CarRiskCalculator.applyModifiers (vehicle : Vehicle) (risk : ℚ) : ℚ :=
  risk * (1.0 + ((2024 : ℚ) - (vehicle.year : ℚ)) * 0.05)
       * (1.0 + (vehicle.accidentCount : ℚ) * 0.15)

/-- `CarRiskCalculator::calculateTotalRisk` (lines 53-55):
`applyModifiers(calculateBaseRisk())`. -/
def CarRiskCalculator.calculateTotalRisk (vehicle : Vehicle) : ℚ :=
  CarRiskCalculator.applyModifiers vehicle (CarRiskCalculator.calculateBaseRisk vehicle)

/-- The concrete calculators behind the abstract `InsuranceRisk` interface.
`CarRiskCalculator` is the only implementing class in the source. -/
inductive InsuranceRiskCalc where
  | carRiskCalculator (vehicle : Vehicle)
deriving DecidableEq, Repr

/-- `RiskCalculatorFactory::createCalculator` (lines 61-63): always constructs
a `CarRiskCalculator` over the given vehicle, regardless of its type. -/
def RiskCalculatorFactory.createCalculator (vehicle : Vehicle) : InsuranceRiskCalc :=
  InsuranceRiskCalc.carRiskCalculator vehicle

/-- Dynamic dispatch of `calculateTotalRisk` over the concrete calculators. -/
def InsuranceRiskCalc.calculateTotalRisk : InsuranceRiskCalc → ℚ
  | .carRiskCalculator vehicle => CarRiskCalculator.calculateTotalRisk vehicle

/-- `InsuranceRiskSystem::categorizeRisk` (lines 72-74):
`score < 1.2 ? LOW : (score < 1.8 ? MEDIUM : HIGH)`. -/
def categorizeRisk (score : ℚ) : RiskLevel :=
  if score < 1.2 then RiskLevel.LOW
  else if score < 1.8 then RiskLevel.MEDIUM
  else RiskLevel.HIGH

/-- `map<string, RiskLevel> riskCategories` (line 69), as an association list
sorted strictly ascending by key. -/
abbrev RiskMap := List (String × RiskLevel)

/-- Keys of the record are in strictly ascending lexicographic order, the
invariant `std::map` maintains and the order it iterates in. -/
def keysSorted (m : RiskMap) : Prop :=
  m.Pairwise (fun a b => a.1 < b.1)

/-- `riskCategories[vehicleId] = ...`: ordered-map upsert. Inserts the pair
at its sorted position, replacing the entry when the key is already present. -/
def mapInsert (k : String) (v : RiskLevel) : RiskMap → RiskMap
  | [] => [(k, v)]
  | (k', v') :: rest =>
    if k < k' then (k, v) :: (k', v') :: rest
    else if k = k' then (k, v) :: rest
    else (k', v') :: mapInsert k v rest

/-- Ordered-map lookup (`map::find`). -/
def mapFind (k : String) : RiskMap → Option RiskLevel
  | [] => none
  | (k', v') :: rest => if k = k' then some v' else mapFind k rest

/-- `string vehicleId = vehicle.getMake() + " " + vehicle.getModel();` (line 80). -/
def vehicleId (vehicle : Vehicle) : String :=
  vehicle.make ++ " " ++ vehicle.model

/-- The category the system stores for a vehicle: factory-made calculator's
total risk, categorized (lines 78-81). -/
def vehicleRiskLevel (vehicle : Vehicle) : RiskLevel :=
  categorizeRisk (RiskCalculatorFactory.createCalculator vehicle).calculateTotalRisk

/-- `InsuranceRiskSystem::assessVehicleRisk` (lines 77-82): compute the risk,
categorize it and upsert it under the vehicle's identifier. -/
def assessVehicleRisk (m : RiskMap) (vehicle : Vehicle) : RiskMap :=
  mapInsert (vehicleId vehicle) (vehicleRiskLevel vehicle) m

/-- The `switch` of lines 87-97 mapping a `RiskLevel` to its display string. -/
def riskLevelStr : RiskLevel → String
  | .LOW => "LOW"
  | .MEDIUM => "MEDIUM"
  | .HIGH => "HIGH"

/-- `InsuranceRiskSystem::printRiskAssessment` (lines 84-101): the list of
output lines, two per entry, in record iteration order. -/
def printRiskAssessment : RiskMap → List String
  | [] => []
  | (k, v) :: rest =>
      ("Vehicle: " ++ k) :: ("Risk Level: " ++ riskLevelStr v) :: printRiskAssessment rest

/-- A whole session's record: the vehicles assessed in order, starting from
the empty record created at system construction (line 156). -/
def runSession (vehicles : List Vehicle) : RiskMap :=
  vehicles.foldl assessVehicleRisk []

/-- The year-validation condition of line 172: the loop exits (accepts) iff
`!(year < 1970 || year > 2024)`. -/
def yearAccepted (year : Int) : Bool :=
  decide (¬(year < 1970 ∨ year > 2024))

/-- The literal retry message printed on line 175. -/
def yearErrorMessage : String :=
  "Invalid year. Please enter a year between 1900 and 2024: "

/-- The year retry loop (lines 172-176) over a stream of console tokens:
`none` is a parse failure (`!(cin >> year)`), `some y` a parsed integer.
Returns the first accepted year, retrying on every rejected token. -/
def readYear : List (Option Int) → Option Int
  | [] => none
  | some y :: rest => if yearAccepted y then some y else readYear rest
  | none :: rest => readYear rest

/-- Scenario A's vehicle: Toyota Corolla, 2024, no accidents, non-commercial. -/
def toyotaCorolla : Vehicle :=
  { make := "Toyota", model := "Corolla", year := 2024, type := VehicleType.CAR,
    accidentCount := 0, isCommercial := false }

/-- Scenario B's vehicle: Ford F150, 2014, two accidents, commercial. -/
def fordF150 : Vehicle :=
  { make := "Ford", model := "F150", year := 2014, type := VehicleType.CAR,
    accidentCount := 2, isCommercial := true }

/-! ### Helper lemmas about the ordered map -/

theorem mapFind_mapInsert_self (k : String) (v : RiskLevel) (m : RiskMap) :
    mapFind k (mapInsert k v m) = some v := by
  induction m with
  | nil => simp [mapInsert, mapFind]
  | cons p rest ih =>
    obtain ⟨k', v'⟩ := p
    rw [mapInsert]
    split_ifs with h1 h2
    · simp [mapFind]
    · simp [mapFind]
    · have hne : k ≠ k' := h2
      simp [mapFind, hne, ih]

theorem mapFind_mapInsert_ne {k j : String} (v : RiskLevel) (m : RiskMap)
    (hj : j ≠ k) : mapFind j (mapInsert k v m) = mapFind j m := by
  induction m with
  | nil => simp [mapInsert, mapFind, hj]
  | cons p rest ih =>
    obtain ⟨k', v'⟩ := p
    rw [mapInsert]
    split_ifs with h1 h2
    · simp [mapFind, hj]
    · subst h2
      simp [mapFind, hj]
    · simp [mapFind, ih]

theorem mem_mapInsert {k : String} {v : RiskLevel} {m : RiskMap}
    {b : String × RiskLevel} (hb : b ∈ mapInsert k v m) : b = (k, v) ∨ b ∈ m := by
  induction m with
  | nil => simpa [mapInsert] using hb
  | cons p rest ih =>
    obtain ⟨k', v'⟩ := p
    rw [mapInsert] at hb
    split_ifs at hb with h1 h2
    · simp only [List.mem_cons] at hb ⊢
      tauto
    · simp only [List.mem_cons] at hb ⊢
      tauto
    · simp only [List.mem_cons] at hb ⊢
      rcases hb with hb | hb
      · tauto
      · rcases ih hb with h | h <;> tauto

theorem keysSorted_mapInsert (k : String) (v : RiskLevel) (m : RiskMap)
    (hm : keysSorted m) : keysSorted (mapInsert k v m) := by
  induction m with
  | nil => simp [mapInsert, keysSorted]
  | cons p rest ih =>
    obtain ⟨k', v'⟩ := p
    rw [keysSorted, List.pairwise_cons] at hm
    obtain ⟨hall, hrest⟩ := hm
    rw [mapInsert]
    split_ifs with h1 h2
    · rw [keysSorted, List.pairwise_cons]
      refine ⟨?_, List.pairwise_cons.mpr ⟨hall, hrest⟩⟩
      intro b hb
      rcases List.mem_cons.mp hb with hb | hb
      · rw [hb]; exact h1
      · exact lt_trans h1 (hall b hb)
    · subst h2
      rw [keysSorted, List.pairwise_cons]
      exact ⟨hall, hrest⟩
    · rw [keysSorted, List.pairwise_cons]
      refine ⟨?_, ih hrest⟩
      intro b hb
      rcases mem_mapInsert hb with hb | hb
      · rw [hb]
        exact lt_of_le_of_ne (not_lt.mp h1) (Ne.symm h2)
      · exact hall b hb

theorem countP_key_eq_zero {k : String} {m : RiskMap}
    (h : ∀ p ∈ m, p.1 ≠ k) :
    m.countP (fun p => decide (p.1 = k)) = 0 := by
  rw [List.countP_eq_zero]
  intro p hp
  simpa using h p hp

theorem countP_mapInsert_self (k : String) (v : RiskLevel) (m : RiskMap)
    (hm : keysSorted m) :
    (mapInsert k v m).countP (fun p => decide (p.1 = k)) = 1 := by
  induction m with
  | nil => simp [mapInsert]
  | cons p rest ih =>
    obtain ⟨k', v'⟩ := p
    rw [keysSorted, List.pairwise_cons] at hm
    obtain ⟨hall, hrest⟩ := hm
    rw [mapInsert]
    split_ifs with h1 h2
    · have hk' : k' ≠ k := ne_of_gt h1
      have hz : rest.countP (fun p => decide (p.1 = k)) = 0 :=
        countP_key_eq_zero (fun p hp => ne_of_gt (lt_trans h1 (hall p hp)))
      simp [List.countP_cons, hk', hz]
    · subst h2
      have hz : rest.countP (fun p => decide (p.1 = k)) = 0 :=
        countP_key_eq_zero (fun p hp => ne_of_gt (hall p hp))
      simp [List.countP_cons, hz]
    · have hk' : k' ≠ k := fun h => h2 h.symm
      simp [List.countP_cons, hk', ih hrest]

theorem keysSorted_runSession_aux (vehicles : List Vehicle) (m : RiskMap)
    (hm : keysSorted m) : keysSorted (vehicles.foldl assessVehicleRisk m) := by
  induction vehicles generalizing m with
  | nil => simpa using hm
  | cons v rest ih =>
    exact ih _ (keysSorted_mapInsert _ _ _ hm)

theorem keysSorted_runSession (vehicles : List Vehicle) :
    keysSorted (runSession vehicles) :=
  keysSorted_runSession_aux vehicles [] List.Pairwise.nil

/-! ### Claim theorems -/

/-- C1: for every vehicle with year in [1970, 2024] and accidentCount ≥ 0,
for either value of the commercial flag, the computed risk score equals
0.8, multiplied by 1.5 if commercial else 1.0, multiplied by
(1 + (2024 − year) × 0.05), multiplied by (1 + accidentCount × 0.15). -/
theorem risk_score_formula (v : Vehicle)
    (hy1 : 1970 ≤ v.year) (hy2 : v.year ≤ 2024) (ha : 0 ≤ v.accidentCount) :
    CarRiskCalculator.calculateTotalRisk v =
      0.8 * (if v.isCommercial then 1.5 else 1.0)
        * (1 + ((2024 : ℚ) - (v.year : ℚ)) * 0.05)
        * (1 + (v.accidentCount : ℚ) * 0.15) := by
  unfold CarRiskCalculator.calculateTotalRisk CarRiskCalculator.applyModifiers
    CarRiskCalculator.calculateBaseRisk BASE_RISK
  ring

/-- Witness for C1: the formula evaluated at the Scenario B vehicle. -/
theorem risk_score_formula_witness :
    CarRiskCalculator.calculateTotalRisk fordF150 =
      0.8 * (if fordF150.isCommercial then 1.5 else 1.0)
        * (1 + ((2024 : ℚ) - (fordF150.year : ℚ)) * 0.05)
        * (1 + (fordF150.accidentCount : ℚ) * 0.15) :=
  risk_score_formula fordF150 (by decide) (by decide) (by decide)

/-- C2: the categorizer returns LOW iff score < 1.2, MEDIUM iff
1.2 ≤ score < 1.8, HIGH iff score ≥ 1.8; the boundary scores 1.2 and 1.8
fall in the upper band (MEDIUM and HIGH respectively). -/
theorem categorize_risk_bands (s : ℚ) :
    (categorizeRisk s = RiskLevel.LOW ↔ s < 1.2) ∧
    (categorizeRisk s = RiskLevel.MEDIUM ↔ 1.2 ≤ s ∧ s < 1.8) ∧
    (categorizeRisk s = RiskLevel.HIGH ↔ 1.8 ≤ s) ∧
    categorizeRisk 1.2 = RiskLevel.MEDIUM ∧
    categorizeRisk 1.8 = RiskLevel.HIGH := by
  have low_iff : categorizeRisk s = RiskLevel.LOW ↔ s < 1.2 := by
    unfold categorizeRisk
    split_ifs with h1 h2 <;> simp [h1]
  have medium_iff : categorizeRisk s = RiskLevel.MEDIUM ↔ 1.2 ≤ s ∧ s < 1.8 := by
    unfold categorizeRisk
    split_ifs with h1 h2
    · simp [not_le.mpr h1]
    · simp [not_lt.mp h1, h2]
    · simp [h2]
  have high_iff : categorizeRisk s = RiskLevel.HIGH ↔ 1.8 ≤ s := by
    unfold categorizeRisk
    split_ifs with h1 h2
    · have hs : s < 1.8 := lt_trans h1 (by norm_num)
      simp [not_le.mpr hs]
    · simp [not_le.mpr h2]
    · simp [not_lt.mp h2]
  refine ⟨low_iff, medium_iff, high_iff, ?_, ?_⟩ <;> norm_num [categorizeRisk]

/-- C3: the scorer is a total function, and for every vehicle within the
validated input domain (year in [1970, 2024], accidentCount ≥ 0) the score
is non-negative. -/
theorem risk_score_nonneg (v : Vehicle)
    (hy1 : 1970 ≤ v.year) (hy2 : v.year ≤ 2024) (ha : 0 ≤ v.accidentCount) :
    0 ≤ CarRiskCalculator.calculateTotalRisk v := by
  have hyq : (v.year : ℚ) ≤ 2024 := by exact_mod_cast hy2
  have haq : (0 : ℚ) ≤ (v.accidentCount : ℚ) := by exact_mod_cast ha
  unfold CarRiskCalculator.calculateTotalRisk CarRiskCalculator.applyModifiers
    CarRiskCalculator.calculateBaseRisk BASE_RISK
  have hbase : (0 : ℚ) ≤ 0.8 * (if v.isCommercial then 1.5 else 1.0) := by
    split_ifs <;> norm_num
  have hage : (0 : ℚ) ≤ 1.0 + ((2024 : ℚ) - (v.year : ℚ)) * 0.05 := by nlinarith
  have hacc : (0 : ℚ) ≤ 1.0 + (v.accidentCount : ℚ) * 0.15 := by nlinarith
  exact mul_nonneg (mul_nonneg hbase hage) hacc

/-- Witness for C3: non-negativity at the Scenario A vehicle. -/
theorem risk_score_nonneg_witness :
    0 ≤ CarRiskCalculator.calculateTotalRisk toyotaCorolla :=
  risk_score_nonneg toyotaCorolla (by decide) (by decide) (by decide)

/-- C4: for any pair of vehicles identical in every attribute except the
commercial flag, the commercial one's score is exactly 1.5 times the
non-commercial one's. -/
theorem commercial_scales_score (v : Vehicle) :
    CarRiskCalculator.calculateTotalRisk { v with isCommercial := true } =
      1.5 * CarRiskCalculator.calculateTotalRisk { v with isCommercial := false } := by
  unfold CarRiskCalculator.calculateTotalRisk CarRiskCalculator.applyModifiers
    CarRiskCalculator.calculateBaseRisk BASE_RISK
  have ht : (({ v with isCommercial := true } : Vehicle).isCommercial) = true := rfl
  have hf : (({ v with isCommercial := false } : Vehicle).isCommercial) = false := rfl
  rw [ht, hf, if_pos rfl, if_neg (by simp)]
  ring

/-- C7: Scenario B — Ford F150, year 2014, 2 accidents, commercial: base risk
1.2, age factor 1.5, accident factor 1.3, total score 2.34, category HIGH. -/
theorem scenario_b_ford_f150 :
    CarRiskCalculator.calculateBaseRisk fordF150 = 1.2 ∧
    (1 + ((2024 : ℚ) - (fordF150.year : ℚ)) * 0.05) = 1.5 ∧
    (1 + (fordF150.accidentCount : ℚ) * 0.15) = 1.3 ∧
    CarRiskCalculator.calculateTotalRisk fordF150 = 2.34 ∧
    vehicleRiskLevel fordF150 = RiskLevel.HIGH := by
  refine ⟨?_, ?_, ?_, ?_, ?_⟩ <;>
    norm_num [CarRiskCalculator.calculateBaseRisk, CarRiskCalculator.calculateTotalRisk,
      CarRiskCalculator.applyModifiers, BASE_RISK, fordF150, vehicleRiskLevel,
      RiskCalculatorFactory.createCalculator, InsuranceRiskCalc.calculateTotalRisk,
      categorizeRisk]

/-- C8: the score and category do not depend on the vehicle type: for two
vehicles identical except for type, the factory-produced calculators yield
equal scores and equal categories. -/
theorem score_ignores_vehicle_type (v : Vehicle) (t1 t2 : VehicleType) :
    (RiskCalculatorFactory.createCalculator { v with type := t1 }).calculateTotalRisk =
      (RiskCalculatorFactory.createCalculator { v with type := t2 }).calculateTotalRisk ∧
    vehicleRiskLevel { v with type := t1 } = vehicleRiskLevel { v with type := t2 } :=
  ⟨rfl, rfl⟩

/-- C5: recording upserts by identifier: after assessing the same identifier
twice, the record maps it to the most recently computed category and holds
exactly one entry under that key; after assessing two distinct identifiers,
both are present with their own categories. -/
theorem assess_upserts_by_id (m : RiskMap) (hm : keysSorted m) (v1 v2 : Vehicle) :
    (vehicleId v1 = vehicleId v2 →
        mapFind (vehicleId v2) (assessVehicleRisk (assessVehicleRisk m v1) v2)
          = some (vehicleRiskLevel v2) ∧
        (assessVehicleRisk (assessVehicleRisk m v1) v2).countP
            (fun p => decide (p.1 = vehicleId v2)) = 1) ∧
    (vehicleId v1 ≠ vehicleId v2 →
        mapFind (vehicleId v1) (assessVehicleRisk (assessVehicleRisk m v1) v2)
          = some (vehicleRiskLevel v1) ∧
        mapFind (vehicleId v2) (assessVehicleRisk (assessVehicleRisk m v1) v2)
          = some (vehicleRiskLevel v2)) := by
  constructor
  · intro _
    refine ⟨mapFind_mapInsert_self _ _ _, ?_⟩
    exact countP_mapInsert_self _ _ _ (keysSorted_mapInsert _ _ _ hm)
  · intro hne
    refine ⟨?_, mapFind_mapInsert_self _ _ _⟩
    unfold assessVehicleRisk
    rw [mapFind_mapInsert_ne _ _ hne]
    exact mapFind_mapInsert_self _ _ _

/-- Witness for C5: the empty record is sorted, and assessing the Toyota then
the Ford leaves both identifiers mapped to their own categories. -/
theorem assess_upserts_by_id_witness :
    keysSorted ([] : RiskMap) ∧
    (vehicleId toyotaCorolla ≠ vehicleId fordF150 →
        mapFind (vehicleId toyotaCorolla)
            (assessVehicleRisk (assessVehicleRisk [] toyotaCorolla) fordF150)
          = some (vehicleRiskLevel toyotaCorolla) ∧
        mapFind (vehicleId fordF150)
            (assessVehicleRisk (assessVehicleRisk [] toyotaCorolla) fordF150)
          = some (vehicleRiskLevel fordF150)) :=
  ⟨List.Pairwise.nil,
   (assess_upserts_by_id [] List.Pairwise.nil toyotaCorolla fordF150).2⟩

/-- C6: the year loop accepts exactly the integers in [1970, 2024] — every
year it returns lies in that range, 1970 and 2024 are accepted, 1969 and
2025 rejected, parse failures and rejected years cause a retry — while the
retry message displayed claims the range is 1900 to 2024. -/
theorem year_input_validation :
    (∀ tokens y, readYear tokens = some y → 1970 ≤ y ∧ y ≤ 2024) ∧
    (∀ tokens, readYear (none :: tokens) = readYear tokens) ∧
    (∀ tokens y, yearAccepted y = false → readYear (some y :: tokens) = readYear tokens) ∧
    yearAccepted 1970 = true ∧
    yearAccepted 2024 = true ∧
    yearAccepted 1969 = false ∧
    yearAccepted 2025 = false ∧
    yearErrorMessage = "Invalid year. Please enter a year between 1900 and 2024: " := by
  refine ⟨?_, fun tokens => rfl, ?_, by decide, by decide, by decide, by decide, rfl⟩
  · intro tokens
    induction tokens with
    | nil =>
      intro y h
      simp [readYear] at h
    | cons tok rest ih =>
      intro y h
      cases tok with
      | none =>
        rw [readYear] at h
        exact ih y h
      | some z =>
        rw [readYear] at h
        by_cases hz : yearAccepted z = true
        · rw [if_pos hz] at h
          injection h with h'
          subst h'
          simp only [yearAccepted, decide_eq_true_eq] at hz
          omega
        · rw [if_neg hz] at h
          exact ih y h
  · intro tokens y hy
    rw [readYear, if_neg (by simp [hy])]

/-- C9: assessing a vehicle leaves every other key's category unchanged. -/
theorem assess_frame (m : RiskMap) (v : Vehicle) (k : String)
    (hk : k ≠ vehicleId v) :
    mapFind k (assessVehicleRisk m v) = mapFind k m :=
  mapFind_mapInsert_ne _ _ hk

/-- Witness for C9: the Toyota's entry is untouched by assessing the Ford. -/
theorem assess_frame_witness :
    vehicleId toyotaCorolla ≠ vehicleId fordF150 ∧
    mapFind (vehicleId toyotaCorolla)
        (assessVehicleRisk (assessVehicleRisk [] toyotaCorolla) fordF150)
      = mapFind (vehicleId toyotaCorolla) (assessVehicleRisk [] toyotaCorolla) :=
  ⟨by decide,
   assess_frame (assessVehicleRisk [] toyotaCorolla) fordF150
     (vehicleId toyotaCorolla) (by decide)⟩

/-- C10: in any session, the record's keys are in strictly ascending
lexicographic order, and the report prints the entries in exactly that
order, each once, as the two lines `Vehicle: <id>` and `Risk Level: <cat>`. -/
theorem report_ascending_two_lines (vehicles : List Vehicle) :
    keysSorted (runSession vehicles) ∧
    printRiskAssessment (runSession vehicles) =
      (runSession vehicles).flatMap
        (fun p => ["Vehicle: " ++ p.1, "Risk Level: " ++ riskLevelStr p.2]) := by
  refine ⟨keysSorted_runSession vehicles, ?_⟩
  generalize runSession vehicles = m
  induction m with
  | nil => rfl
  | cons p rest ih =>
    obtain ⟨k, v⟩ := p
    simp [printRiskAssessment, ih]

end Main3
